import Mathlib

/-!
Verification development for the Kotlin binding generator core
(`uniffi_bindgen/src/bindings/kotlin/gen_kotlin.rs` together with
`gen_kotlin/object.rs` and `gen_kotlin/callback_interface.rs`).

The Rust source is shallowly embedded: pure Rust functions become Lean
functions, `Result` becomes `Except`, `Option` stays `Option`, and a
`panic!`/`unreachable!` outcome of a string-producing operation is made
explicit through the `RenderResult` type.  Types and helpers that the
three source files use but that are defined elsewhere in the repository
(the interface model, the backend traits, the `MergeWith` helper) are
modelled from the specification and carry a doc comment saying so.
-/

/-! ## String helpers (models of external crates) -/

/-- Modelled from the external `heck` crate: split an identifier into its
words at underscore, hyphen and space boundaries, dropping empty pieces. -/
def splitWords (s : String) : List String :=
  (s.split fun c => c = '_' || c = '-' || c = ' ').filter fun w => w ≠ ""

/-- Uppercase the first character of a word, lowercase the rest. -/
def capitalizeWord (w : String) : String :=
  match w.data with
  | [] => ""
  | c :: cs => String.mk (c.toUpper :: (cs.map Char.toLower))

/-- Modelled from the external `heck` crate: CamelCase transform used by
the oracle for class names. -/
def to_camel_case (s : String) : String :=
  String.join ((splitWords s).map capitalizeWord)

/-- Lowercase the first character of a word. -/
def decapitalizeWord (w : String) : String :=
  match w.data with
  | [] => ""
  | c :: cs => String.mk (c.toLower :: cs)

/-- Modelled from the external `heck` crate: mixedCase transform used by
the oracle for function and variable names. -/
def to_mixed_case (s : String) : String :=
  decapitalizeWord (to_camel_case s)

/-- Uppercase every character of a word. -/
def upperWord (w : String) : String :=
  String.mk (w.data.map Char.toUpper)

/-- Modelled from the external `heck` crate: SHOUTY_SNAKE_CASE transform
used by the oracle for enum variants. -/
def to_shouty_snake_case (s : String) : String :=
  String.intercalate "_" ((splitWords s).map upperWord)

/-- Model of Rust `str::strip_suffix`: when `suffix` is a suffix of `s`,
return `s` with that suffix removed, otherwise `none`. -/
def strip_suffix (s suffix : String) : Option String :=
  if suffix.data.isSuffixOf s.data then
    some (String.mk (s.data.take (s.data.length - suffix.data.length)))
  else
    none

/-! ## Data model -/

/-- The closed `TypeIdentifier` union.  Modelled from the spec: the
interface model's type enum is not among the given source files; the spec
describes it as the closed tagged union over Primitive, Record, Enum,
Object, CallbackInterface, Optional, Sequence, Map and External. -/
inductive TypeIdentifier where
  | Primitive (kind : String)
  | Record (id : String)
  | Enum (id : String)
  | Object (id : String)
  | CallbackInterface (id : String)
  | Optional (inner : TypeIdentifier)
  | Sequence (inner : TypeIdentifier)
  | Map (key value : TypeIdentifier)
  | External (id : String)
  deriving DecidableEq, Repr

/-- The closed set of scalar wire types, exactly the variants matched by
`KotlinLanguageOracle::ffi_type_label` in the source. -/
inductive FFIType where
  | Int8
  | UInt8
  | Int16
  | UInt16
  | Int32
  | UInt32
  | Int64
  | UInt64
  | Float32
  | Float64
  | RustArcPtr
  | RustBuffer
  | ForeignBytes
  | ForeignCallback
  deriving DecidableEq, Repr

/-- Radix of an integer literal; the source's `literal_kt` match shows a
radix field in the Int and UInt literal variants. -/
inductive Radix where
  | decimal
  | octal
  | hexadecimal
  deriving DecidableEq, Repr

/-- Modelled from the spec: `interface::Literal` is not among the given
source files.  The spec describes a literal as a tagged value (enum
literal, signed or unsigned integer, float, ...); the four named variant
families carry the `TypeIdentifier` they are declared against, with their
shapes following the patterns matched in the source's `literal_kt`
filter.  The spec's ellipsis marks further variants, corroborated by the
source: the wildcard arm of `literal_kt` routes them to the legacy
renderer, and they carry no declared type (which is exactly why that arm
cannot consult the oracle): boolean, string, null, and the empty
sequence and empty map constants. -/
inductive Literal where
  | Enum (variantName : String) (type_ : TypeIdentifier)
  | Int (value : Int) (radix : Radix) (type_ : TypeIdentifier)
  | UInt (value : Nat) (radix : Radix) (type_ : TypeIdentifier)
  | Float (value : String) (type_ : TypeIdentifier)
  | Boolean (value : Bool)
  | String (value : String)
  | Null
  | EmptySequence
  | EmptyMap
  deriving DecidableEq, Repr

/-- The `TypeIdentifier` a literal is declared against, when it carries
one: exactly the four variant families whose patterns the match at the
head of the source's `literal_kt` filter extracts; the legacy variants
carry none. -/
def Literal.declaredType? : Literal → Option TypeIdentifier
  | .Enum _ t => some t
  | .Int _ _ t => some t
  | .UInt _ _ t => some t
  | .Float _ t => some t
  | _ => none

/-- Model of `askama::Error`, the error type of the filter layer. -/
inductive AskamaError where
  | fmt
  deriving DecidableEq, Repr

/-- Outcome of a string-producing strategy operation: either a rendered
string, or a panic (`unreachable!()` in the source), which is distinct
from a recoverable `AskamaError`. -/
inductive RenderResult where
  | panicked
  | rendered (s : String)
  deriving DecidableEq, Repr

/-! ## Config -/

/-- The `Config` struct of `gen_kotlin.rs`: two optional string fields. -/
structure Config where
  package_name : Option String
  cdylib_name : Option String
  deriving DecidableEq, Repr

/-- `Config::package_name`: the stored value when set, `"uniffi"` when
the field is unset. -/
def Config.packageName (c : Config) : String :=
  match c.package_name with
  | some packageName => packageName
  | none => "uniffi"

/-- `Config::cdylib_name`: the stored value when set, `"uniffi"` when the
field is unset. -/
def Config.cdylibName (c : Config) : String :=
  match c.cdylib_name with
  | some cdylibName => cdylibName
  | none => "uniffi"

/-- `From<&ComponentInterface> for Config`: the interface-derived default
config for a component with namespace `ns`. -/
def Config.from_ci (ns : String) : Config :=
  { package_name := some ("uniffi." ++ ns)
  , cdylib_name := some ("uniffi_" ++ ns) }

/-- Modelled from the spec: the `MergeWith` impl for `Option` lives in
the crate root, outside the given source files.  The spec's merge
discipline says an explicitly supplied value always wins over any derived
default, so in `a.merge_with(b)` with `a` the explicit overlay and `b`
the fallback, a present `a` wins and an absent `a` falls back to `b`. -/
def optionMergeWith (a b : Option String) : Option String :=
  match a with
  | some v => some v
  | none => b

/-- `MergeWith for Config`: field-wise merge of the two option fields. -/
def Config.merge_with (self other : Config) : Config :=
  { package_name := optionMergeWith self.package_name other.package_name
  , cdylib_name := optionMergeWith self.cdylib_name other.cdylib_name }

/-! ## Oracle naming transforms -/

/-- `KotlinLanguageOracle::class_name`: CamelCase rendering. -/
def class_name (nm : String) : String :=
  to_camel_case nm

/-- `KotlinLanguageOracle::fn_name`: mixedCase rendering. -/
def fn_name (nm : String) : String :=
  to_mixed_case nm

/-- `KotlinLanguageOracle::var_name`: mixedCase rendering. -/
def var_name (nm : String) : String :=
  to_mixed_case nm

/-- `KotlinLanguageOracle::enum_variant`: SHOUTY_SNAKE_CASE rendering. -/
def enum_variant (nm : String) : String :=
  to_shouty_snake_case nm

/-- `KotlinLanguageOracle::exception_name`: replace a trailing `"Error"`
with `"Exception"`; names without that suffix pass through unchanged. -/
def exception_name (nm : String) : String :=
  match strip_suffix nm "Error" with
  | none => nm
  | some stripped => stripped ++ "Exception"

/-- `KotlinLanguageOracle::ffi_type_label`: Kotlin scalar type name for
each wire type, using signed scalars for the unsigned wire types. -/
def ffi_type_label (ffi_type : FFIType) : String :=
  match ffi_type with
  | .Int8 | .UInt8 => "Byte"
  | .Int16 | .UInt16 => "Short"
  | .Int32 | .UInt32 => "Int"
  | .Int64 | .UInt64 => "Long"
  | .Float32 => "Float"
  | .Float64 => "Double"
  | .RustArcPtr => "Pointer"
  | .RustBuffer => "RustBuffer.ByValue"
  | .ForeignBytes => "ForeignBytes.ByValue"
  | .ForeignCallback => "ForeignCallback"

/-! ## CodeType strategies -/

/-- The concrete strategy values a `KotlinLanguageOracle` can hand out,
together with the two dedicated strategies defined in `object.rs` and
`callback_interface.rs` (present in the source tree). -/
inductive CodeType where
  | EnumCodeType (id : String)
  | FallbackCodeType (type_ : TypeIdentifier)
  | ObjectCodeType (id : String)
  | CallbackInterfaceCodeType (id : String)
  deriving DecidableEq, Repr

/-- `CallbackInterfaceCodeType::internals`: canonical name followed by
`"Internals"`. -/
def callbackInternals (id : String) : String :=
  "CallbackInterface" ++ class_name id ++ "Internals"

/-- Per-strategy `type_label`.  Object and callback-interface labels
follow `object.rs` and `callback_interface.rs`; the enum and fallback
strategies live in `enum_.rs` and `fallback.rs`, which are not among the
given source files, so those two arms are modelled from the spec
(user-facing label of the named type, class-cased for named variants). -/
def CodeType.type_label : CodeType → String
  | .EnumCodeType id => class_name id
  | .FallbackCodeType _ => "FallbackType"
  | .ObjectCodeType id => class_name id
  | .CallbackInterfaceCodeType id => class_name id

/-- Per-strategy `canonical_name`; the object and callback-interface arms
follow the source, the other two are modelled from the spec. -/
def CodeType.canonical_name : CodeType → String
  | .EnumCodeType id => "Enum" ++ class_name id
  | .FallbackCodeType _ => "FallbackType"
  | .ObjectCodeType id => "Object" ++ class_name id
  | .CallbackInterfaceCodeType id => "CallbackInterface" ++ class_name id

/-- Modelled from the spec: rendering of the compile-time constant
carried by a literal, shared by the modelled legacy and fallback
renderers. -/
def constantRender (literal : Literal) : String :=
  match literal with
  | .Enum variantName _ => enum_variant variantName
  | .Int v _ _ => toString v
  | .UInt v _ _ => toString v
  | .Float v _ => v
  | .Boolean true => "true"
  | .Boolean false => "false"
  | .String s => "\"" ++ s ++ "\""
  | .Null => "null"
  | .EmptySequence => "listOf()"
  | .EmptyMap => "mapOf()"

/-- Modelled from the spec: literal rendering of the enum strategy
(`enum_.rs` is not among the given source files); the enum declaration
component maps literals through the variant-name transform. -/
def enumLiteralRender (id : String) (literal : Literal) : String :=
  match literal with
  | .Enum variantName _ => class_name id ++ "." ++ enum_variant variantName
  | lit => constantRender lit

/-- Modelled from the spec: literal rendering of the generic fallback
strategy (`fallback.rs` is not among the given source files); it renders
the compile-time constant carried by the literal. -/
def fallbackLiteralRender (literal : Literal) : String :=
  constantRender literal

/-- Modelled from the spec: the legacy literal renderer
(`legacy_kt.rs` is not among the given source files).  It renders the
compile-time constant carried by the literal as a recoverable result,
with no oracle dispatch at all. -/
def legacy_literal_kt (literal : Literal) : Except AskamaError String :=
  Except.ok (constantRender literal)

/-- Per-strategy `literal`.  The object and callback-interface strategies
hit `unreachable!()` in the source for every literal, modelled as a
`panicked` outcome; the enum and fallback arms render a string. -/
def CodeType.literal : CodeType → Literal → RenderResult
  | .EnumCodeType id, lit => .rendered (enumLiteralRender id lit)
  | .FallbackCodeType _, lit => .rendered (fallbackLiteralRender lit)
  | .ObjectCodeType _, _ => .panicked
  | .CallbackInterfaceCodeType _, _ => .panicked

/-- Per-strategy `lower`; object and callback-interface arms follow the
source format strings, the other two are modelled from the spec. -/
def CodeType.lower : CodeType → String → String
  | .EnumCodeType _, nm => var_name nm ++ ".lower()"
  | .FallbackCodeType _, nm => var_name nm ++ ".lower()"
  | .ObjectCodeType _, nm => var_name nm ++ ".lower()"
  | .CallbackInterfaceCodeType id, nm =>
      callbackInternals id ++ ".lower(" ++ var_name nm ++ ")"

/-- Per-strategy `write`; object and callback-interface arms follow the
source format strings, the other two are modelled from the spec. -/
def CodeType.write : CodeType → String → String → String
  | .EnumCodeType _, nm, target => var_name nm ++ ".write(" ++ target ++ ")"
  | .FallbackCodeType _, nm, target => var_name nm ++ ".write(" ++ target ++ ")"
  | .ObjectCodeType _, nm, target => var_name nm ++ ".write(" ++ target ++ ")"
  | .CallbackInterfaceCodeType id, nm, target =>
      callbackInternals id ++ ".write(" ++ var_name nm ++ ", " ++ target ++ ")"

/-- Per-strategy `lift`; object and callback-interface arms follow the
source format strings, the other two are modelled from the spec. -/
def CodeType.lift : CodeType → String → String
  | .EnumCodeType id, nm => class_name id ++ ".lift(" ++ nm ++ ")"
  | .FallbackCodeType _, nm => "liftFallback(" ++ nm ++ ")"
  | .ObjectCodeType id, nm => class_name id ++ ".lift(" ++ nm ++ ")"
  | .CallbackInterfaceCodeType id, nm =>
      callbackInternals id ++ ".lift(" ++ class_name id ++ ", " ++ nm ++ ")"

/-- Per-strategy `read`; object and callback-interface arms follow the
source format strings, the other two are modelled from the spec. -/
def CodeType.read : CodeType → String → String
  | .EnumCodeType id, nm => class_name id ++ ".read(" ++ nm ++ ")"
  | .FallbackCodeType _, nm => "readFallback(" ++ nm ++ ")"
  | .ObjectCodeType id, nm => class_name id ++ ".read(" ++ nm ++ ")"
  | .CallbackInterfaceCodeType id, nm =>
      callbackInternals id ++ ".read(" ++ class_name id ++ ", " ++ nm ++ ")"

/-- Per-strategy `helper_code`; object and callback-interface arms follow
the source, the other two are modelled from the spec (no extra helper). -/
def CodeType.helper_code : CodeType → Option String
  | .EnumCodeType _ => none
  | .FallbackCodeType _ => none
  | .ObjectCodeType id =>
      some ("// Helper code for " ++ class_name id
        ++ " class is found in ObjectTemplate.kt")
  | .CallbackInterfaceCodeType id =>
      some ("// Helper code for " ++ class_name id
        ++ " callback interface is found in CallbackInterfaceTemplate.kt")

/-- Per-strategy `import_code`.  The object strategy contributes the
atomic imports per `object.rs`; the callback-interface strategy has no
`import_code` override in `callback_interface.rs` (trait default `none`);
the other two arms are modelled from the spec (no extra imports). -/
def CodeType.import_code : CodeType → Option (List String)
  | .EnumCodeType _ => none
  | .FallbackCodeType _ => none
  | .ObjectCodeType _ =>
      some
        [ "java.util.concurrent.atomic.AtomicLong"
        , "java.util.concurrent.atomic.AtomicBoolean" ]
  | .CallbackInterfaceCodeType _ => none

/-- Modelled from the spec: the `CodeType` trait's `definition_code`
default (the backend trait module is not among the given source files);
neither `object.rs` nor `callback_interface.rs` overrides it. -/
def CodeType.definition_code : CodeType → Option String
  | _ => none

/-! ## Oracle dispatch -/

/-- `KotlinLanguageOracle::create_code_type`: the dispatch match of
`gen_kotlin.rs`, with the dedicated arm for enums and the wildcard arm
handing every other variant to the fallback strategy. -/
def create_code_type (type_ : TypeIdentifier) : CodeType :=
  match type_ with
  | .Enum id => .EnumCodeType id
  | t => .FallbackCodeType t

/-- `LanguageOracle::find` for the Kotlin oracle: always `Ok` of the
strategy created for the identifier. -/
def find (type_ : TypeIdentifier) : Except AskamaError CodeType :=
  Except.ok (create_code_type type_)

/-! ## Filter layer -/

namespace filters

/-- Filter `definition_code`. -/
def definition_code (type_ : TypeIdentifier) : Except AskamaError (Option String) :=
  (find type_).map fun ct => ct.definition_code

/-- Filter `type_kt`. -/
def type_kt (type_ : TypeIdentifier) : Except AskamaError String :=
  (find type_).map fun ct => ct.type_label

/-- Filter `lower_kt`. -/
def lower_kt (nm : String) (type_ : TypeIdentifier) : Except AskamaError String :=
  (find type_).map fun ct => ct.lower nm

/-- Filter `write_kt`. -/
def write_kt (nm target : String) (type_ : TypeIdentifier) :
    Except AskamaError String :=
  (find type_).map fun ct => ct.write nm target

/-- Filter `lift_kt`. -/
def lift_kt (nm : String) (type_ : TypeIdentifier) : Except AskamaError String :=
  (find type_).map fun ct => ct.lift nm

/-- Filter `literal_kt`: for the four literal variant families that
carry a declared type, extract that type, look up the strategy and
delegate; for every other literal variant the source's wildcard arm
returns the legacy renderer's result directly, with no oracle lookup (a
legacy success is a rendered string, never a panic). -/
def literal_kt (literal : Literal) : Except AskamaError RenderResult :=
  match literal with
  | .Enum _ type_ | .Int _ _ type_ | .UInt _ _ type_ | .Float _ type_ =>
      (find type_).map fun ct => ct.literal literal
  | _ => (legacy_literal_kt literal).map RenderResult.rendered

/-- Filter `read_kt`. -/
def read_kt (nm : String) (type_ : TypeIdentifier) : Except AskamaError String :=
  (find type_).map fun ct => ct.read nm

/-- Filter `type_ffi`. -/
def type_ffi (type_ : FFIType) : Except AskamaError String :=
  Except.ok (ffi_type_label type_)

/-- Filter `class_name_kt`. -/
def class_name_kt (nm : String) : Except AskamaError String :=
  Except.ok (class_name nm)

/-- Filter `fn_name_kt`. -/
def fn_name_kt (nm : String) : Except AskamaError String :=
  Except.ok (fn_name nm)

/-- Filter `var_name_kt`. -/
def var_name_kt (nm : String) : Except AskamaError String :=
  Except.ok (var_name nm)

/-- Filter `enum_variant_kt`. -/
def enum_variant_kt (nm : String) : Except AskamaError String :=
  Except.ok (enum_variant nm)

/-- Filter `exception_name_kt`. -/
def exception_name_kt (nm : String) : Except AskamaError String :=
  Except.ok (exception_name nm)

end filters

/-- The oracle-delegation result prescribed for a literal: look up the
strategy for the literal's declared type and invoke its literal
operation.  It does not exist (is `none`) when the literal carries no
declared type to look up. -/
def literalDelegation (lit : Literal) : Option (Except AskamaError RenderResult) :=
  lit.declaredType?.map fun t => (find t).map fun ct => ct.literal lit

/-! ## Member declarations -/

/-- Modelled from the spec: the interface model's callback-interface
record (not among the given source files); the declaration wrapper only
consumes its name and the contains-unsigned predicate. -/
structure CallbackInterface where
  name : String
  deriving DecidableEq, Repr

/-- The `KotlinCallbackInterface` declaration wrapper. -/
structure KotlinCallbackInterface where
  inner : CallbackInterface
  contains_unsigned_types : Bool
  deriving DecidableEq, Repr

/-- `MemberDeclaration::type_identifier` for `KotlinCallbackInterface`. -/
def KotlinCallbackInterface.type_identifier
    (self : KotlinCallbackInterface) : TypeIdentifier :=
  .CallbackInterface self.inner.name

/-- `MemberDeclaration::initialization_code` for
`KotlinCallbackInterface`: register the dispatch-table internals with the
loaded library. -/
def KotlinCallbackInterface.initialization_code
    (self : KotlinCallbackInterface) : Option String :=
  some (callbackInternals self.inner.name ++ ".register(lib)")

/-- `MemberDeclaration::import_code` for `KotlinCallbackInterface`: the
mutual-exclusion lock imports protecting the dispatch table. -/
def KotlinCallbackInterface.import_code
    (_self : KotlinCallbackInterface) : Option (List String) :=
  some
    [ "java.util.concurrent.locks.ReentrantLock"
    , "kotlin.concurrent.withLock" ]

/-- Modelled from the spec: the interface model's object record (not
among the given source files). -/
structure InterfaceObject where
  name : String
  deriving DecidableEq, Repr

/-- The `KotlinObject` declaration wrapper. -/
structure KotlinObject where
  inner : InterfaceObject
  contains_unsigned_types : Bool
  deriving DecidableEq, Repr

/-- `MemberDeclaration::type_identifier` for `KotlinObject`. -/
def KotlinObject.type_identifier (self : KotlinObject) : TypeIdentifier :=
  .Object self.inner.name

/-! ## Disposal model for generated object handles

Modelled from the spec: the generated Kotlin handle code lives in
`ObjectTemplate.kt`, which is not among the given source files.  The spec
describes it as an atomic already-destroyed flag that each disposal
trigger checks-and-sets indivisibly; only the trigger that wins the race
performs the native destroy call.  The model runs the two triggers (the
explicit application-level one and the automatic host-runtime one) as
two-step processes over a shared state under an arbitrary interleaving
schedule, with a counting fake native-destroy function. -/
structure DisposalState where
  wasDestroyed : Bool
  destroyCalls : Nat
  deriving DecidableEq, Repr

/-- Program counter of one disposal trigger. -/
inductive DisposalPc where
  | start
  | checked
  | finished
  deriving DecidableEq, Repr

/-- Thread-local state of one disposal trigger: its program counter and
whether its checked-and-set won the race. -/
structure TriggerState where
  pc : DisposalPc
  won : Bool
  deriving DecidableEq, Repr

/-- One atomic step of a disposal trigger.  From `start` it performs the
indivisible checked-and-set of the already-destroyed flag; from `checked`
it invokes the counting native-destroy exactly when it won. -/
def triggerStep (t : TriggerState) (s : DisposalState) :
    TriggerState × DisposalState :=
  match t.pc with
  | .start =>
      (⟨.checked, !s.wasDestroyed⟩, ⟨true, s.destroyCalls⟩)
  | .checked =>
      (⟨.finished, t.won⟩,
        if t.won then ⟨s.wasDestroyed, s.destroyCalls + 1⟩ else s)
  | .finished => (t, s)

/-- The shared disposal state together with the two racing triggers:
`a` is the explicit application-level disposal, `b` the automatic
host-runtime reclamation. -/
structure DisposalWorld where
  shared : DisposalState
  a : TriggerState
  b : TriggerState
  deriving DecidableEq, Repr

/-- Run one scheduled step: `true` steps trigger `a`, `false` steps
trigger `b`. -/
def schedStep (w : DisposalWorld) (choice : Bool) : DisposalWorld :=
  if choice then
    let p := triggerStep w.a w.shared
    ⟨p.2, p.1, w.b⟩
  else
    let p := triggerStep w.b w.shared
    ⟨p.2, w.a, p.1⟩

/-- Run a whole interleaving schedule. -/
def runSched (w : DisposalWorld) : List Bool → DisposalWorld
  | [] => w
  | c :: cs => runSched (schedStep w c) cs

/-- The initial world: flag clear, no destroy calls, both triggers at
their start. -/
def initialWorld : DisposalWorld :=
  ⟨⟨false, 0⟩, ⟨.start, false⟩, ⟨.start, false⟩⟩

/-- Count 1 when a trigger has passed its checked-and-set and won. -/
def wonCount (t : TriggerState) : Nat :=
  if t.pc ≠ .start ∧ t.won then 1 else 0

/-- Count 1 when a trigger has finished and won (so it has called the
native destroy). -/
def destroyedCount (t : TriggerState) : Nat :=
  if t.pc = .finished ∧ t.won then 1 else 0

/-- Inductive invariant of the disposal race: the flag is set exactly
when some trigger has checked, at most one trigger ever wins (exactly one
once any has checked), and the destroy-call counter counts the finished
winners. -/
def disposalInv (w : DisposalWorld) : Prop :=
  (w.shared.wasDestroyed = (w.a.pc ≠ .start || w.b.pc ≠ .start)) ∧
  (wonCount w.a + wonCount w.b
    = if w.a.pc ≠ .start ∨ w.b.pc ≠ .start then 1 else 0) ∧
  (w.shared.destroyCalls = destroyedCount w.a + destroyedCount w.b)

theorem disposalInv_initial : disposalInv initialWorld := by
  simp [disposalInv, initialWorld, wonCount, destroyedCount]

theorem disposalInv_step (w : DisposalWorld) (c : Bool)
    (h : disposalInv w) : disposalInv (schedStep w c) := by
  obtain ⟨hflag, hwon, hcalls⟩ := h
  obtain ⟨⟨flag, calls⟩, ⟨pca, wa⟩, ⟨pcb, wb⟩⟩ := w
  cases c <;> cases pca <;> cases pcb <;> cases wa <;> cases wb <;>
    cases flag <;>
    simp_all [disposalInv, schedStep, triggerStep, wonCount,
      destroyedCount]

theorem disposalInv_run (sched : List Bool) (w : DisposalWorld)
    (h : disposalInv w) : disposalInv (runSched w sched) := by
  induction sched generalizing w with
  | nil => exact h
  | cons c cs ih => exact ih _ (disposalInv_step w c h)

/-! ## Supporting lemmas -/

theorem strip_suffix_of_append (stripped suffix : String) :
    strip_suffix (stripped ++ suffix) suffix = some stripped := by
  have hsuf : suffix.data.isSuffixOf (stripped ++ suffix).data = true := by
    rw [String.data_append]
    exact List.isSuffixOf_iff_suffix.mpr (List.suffix_append _ _)
  rw [strip_suffix, if_pos hsuf]
  congr 1
  conv_lhs => rw [String.data_append, List.length_append]
  rw [Nat.add_sub_cancel, List.take_left]

theorem strip_suffix_eq_none (s suffix : String)
    (h : ¬ ∃ stripped, s = stripped ++ suffix) :
    strip_suffix s suffix = none := by
  rw [strip_suffix, if_neg]
  intro hsuf
  obtain ⟨t, ht⟩ := List.isSuffixOf_iff_suffix.mp hsuf
  refine h ⟨String.mk t, ?_⟩
  cases s with
  | mk sdata =>
      cases suffix with
      | mk sufdata =>
          show String.mk sdata = String.mk (t ++ sufdata)
          exact congrArg String.mk ht.symm

/-! ## Claim theorems -/

/-- C2: for every input name, if it ends with the suffix Error then the
exception-name transform returns the name with that trailing Error
removed and Exception appended; a name that does not end with Error
passes through unchanged. -/
theorem exception_name_strips_trailing_error (nm : String) :
    (∀ stripped, nm = stripped ++ "Error" →
      exception_name nm = stripped ++ "Exception") ∧
    ((¬ ∃ stripped, nm = stripped ++ "Error") → exception_name nm = nm) := by
  constructor
  · intro stripped h
    subst h
    rw [exception_name, strip_suffix_of_append]
  · intro h
    rw [exception_name, strip_suffix_eq_none nm ("Error") h]

/-- Witness for C2: FooError becomes FooException, and Foo, which has no
trailing Error, is unchanged. -/
theorem exception_name_strips_trailing_error_witness :
    exception_name ("FooError") = "FooException" ∧
    exception_name ("Foo") = "Foo" := by
  constructor
  · exact (exception_name_strips_trailing_error ("FooError")).1 ("Foo") (by decide)
  · refine (exception_name_strips_trailing_error ("Foo")).2 ?_
    rintro ⟨stripped, h⟩
    have hl := congrArg String.length h
    rw [String.length_append] at hl
    have h5 : String.length ("Error") = 5 := by decide
    have h3 : String.length ("Foo") = 3 := by decide
    omega

/-- C3: for each width in 8, 16, 32 and 64, the unsigned and the signed
integer wire types of that width map to the same Kotlin scalar type name:
Byte, Short, Int and Long respectively. -/
theorem ffi_type_label_unsigned_as_signed :
    ffi_type_label .UInt8 = ffi_type_label .Int8 ∧
    ffi_type_label .Int8 = "Byte" ∧
    ffi_type_label .UInt16 = ffi_type_label .Int16 ∧
    ffi_type_label .Int16 = "Short" ∧
    ffi_type_label .UInt32 = ffi_type_label .Int32 ∧
    ffi_type_label .Int32 = "Int" ∧
    ffi_type_label .UInt64 = ffi_type_label .Int64 ∧
    ffi_type_label .Int64 = "Long" :=
  ⟨rfl, rfl, rfl, rfl, rfl, rfl, rfl, rfl⟩

/-- C4: with no explicit overrides, merging over the interface-derived
default resolves the package name to uniffi.ns and the link-library name
to uniffi_ns; an explicitly supplied value for either field wins exactly,
and each field is resolved independently of the other. -/
theorem config_merge_resolution (ns : String) :
    Config.packageName (Config.merge_with ⟨none, none⟩ (Config.from_ci ns))
      = "uniffi." ++ ns ∧
    Config.cdylibName (Config.merge_with ⟨none, none⟩ (Config.from_ci ns))
      = "uniffi_" ++ ns ∧
    (∀ p cd, Config.packageName
      (Config.merge_with ⟨some p, cd⟩ (Config.from_ci ns)) = p) ∧
    (∀ p cd, Config.cdylibName
      (Config.merge_with ⟨p, some cd⟩ (Config.from_ci ns)) = cd) ∧
    (∀ p cd cd' other, Config.packageName (Config.merge_with ⟨p, cd⟩ other)
      = Config.packageName (Config.merge_with ⟨p, cd'⟩ other)) ∧
    (∀ p p' cd other, Config.cdylibName (Config.merge_with ⟨p, cd⟩ other)
      = Config.cdylibName (Config.merge_with ⟨p', cd⟩ other)) :=
  ⟨rfl, rfl, fun _ _ => rfl, fun _ _ => rfl,
    fun _ _ _ _ => rfl, fun _ _ _ _ => rfl⟩

/-- C10: when a Config field was never supplied and never merged from a
derived default, its accessor returns the constant string uniffi, not a
value derived from any component namespace. -/
theorem config_accessor_unset_returns_uniffi :
    (∀ cd : Option String, Config.packageName ⟨none, cd⟩ = "uniffi") ∧
    (∀ p : Option String, Config.cdylibName ⟨p, none⟩ = "uniffi") :=
  ⟨fun _ => rfl, fun _ => rfl⟩

/-- C5: the oracle's find is total (never an error) and deterministic:
on equal identifiers it succeeds with exactly one strategy, and the
strategies' rendered outputs are identical. -/
theorem find_total_and_deterministic (t₁ t₂ : TypeIdentifier)
    (h : t₁ = t₂) :
    (∃ ct, find t₁ = Except.ok ct) ∧
    (∀ ct₁ ct₂, find t₁ = Except.ok ct₁ → find t₂ = Except.ok ct₂ →
      ct₁.type_label = ct₂.type_label ∧
      ct₁.canonical_name = ct₂.canonical_name ∧
      (∀ nm, ct₁.lower nm = ct₂.lower nm) ∧
      (∀ nm target, ct₁.write nm target = ct₂.write nm target) ∧
      (∀ nm, ct₁.lift nm = ct₂.lift nm) ∧
      (∀ nm, ct₁.read nm = ct₂.read nm) ∧
      (∀ lit, ct₁.literal lit = ct₂.literal lit) ∧
      ct₁.helper_code = ct₂.helper_code ∧
      ct₁.import_code = ct₂.import_code) := by
  subst h
  refine ⟨⟨create_code_type t₁, rfl⟩, ?_⟩
  intro ct₁ ct₂ h₁ h₂
  have hct : ct₁ = ct₂ := Except.ok.inj (h₁.symm.trans h₂)
  subst hct
  exact ⟨rfl, rfl, fun _ => rfl, fun _ _ => rfl, fun _ => rfl,
    fun _ => rfl, fun _ => rfl, rfl, rfl⟩

/-- Witness for C5 at the object identifier Tables. -/
theorem find_total_and_deterministic_witness :
    (∃ ct, find (.Object ("Tables")) = Except.ok ct) ∧
    (∀ ct₁ ct₂, find (.Object ("Tables")) = Except.ok ct₁ →
      find (.Object ("Tables")) = Except.ok ct₂ →
      ct₁.type_label = ct₂.type_label ∧
      ct₁.canonical_name = ct₂.canonical_name ∧
      (∀ nm, ct₁.lower nm = ct₂.lower nm) ∧
      (∀ nm target, ct₁.write nm target = ct₂.write nm target) ∧
      (∀ nm, ct₁.lift nm = ct₂.lift nm) ∧
      (∀ nm, ct₁.read nm = ct₂.read nm) ∧
      (∀ lit, ct₁.literal lit = ct₂.literal lit) ∧
      ct₁.helper_code = ct₂.helper_code ∧
      ct₁.import_code = ct₂.import_code) :=
  find_total_and_deterministic (.Object ("Tables")) (.Object ("Tables")) rfl

/-- C6: the literal operation of the object strategy and of the
callback-interface strategy never returns a rendered string for any
literal; it is a panic (an unreachable path), not a recoverable error
value. -/
theorem object_callback_literal_panics (id : String) (lit : Literal) :
    CodeType.literal (.ObjectCodeType id) lit = .panicked ∧
    CodeType.literal (.CallbackInterfaceCodeType id) lit = .panicked ∧
    (∀ s, CodeType.literal (.ObjectCodeType id) lit ≠ .rendered s) ∧
    (∀ s, CodeType.literal (.CallbackInterfaceCodeType id) lit
      ≠ .rendered s) := by
  refine ⟨rfl, rfl, fun s hs => ?_, fun s hs => ?_⟩ <;>
    simp [CodeType.literal] at hs

/-- Counterexample for C7: at the concrete legacy literal Null the
literal filter returns a rendered result although the literal carries no
declared type, so no oracle strategy lookup exists whose literal
operation the result could equal: the source's wildcard arm returns the
legacy renderer's output without consulting the oracle. -/
theorem literal_kt_null_bypasses_oracle :
    Literal.declaredType? .Null = none ∧
    literalDelegation .Null = none ∧
    filters.literal_kt .Null = Except.ok (.rendered ("null")) ∧
    filters.literal_kt .Null
      = (legacy_literal_kt .Null).map RenderResult.rendered :=
  ⟨rfl, rfl, rfl, rfl⟩

/-- C7 amended: the literal filter is pure delegation exactly for the
literals that carry a declared type (enum, signed and unsigned integer,
and float variants) and routes every other literal variant to the legacy
renderer with no oracle lookup; every other filter function is a pure
delegation from the oracle's strategy for the given type, or a direct
call of the matching oracle transform. -/
theorem filters_delegation_amended :
    (∀ lit t, lit.declaredType? = some t →
      filters.literal_kt lit = (find t).map fun ct => ct.literal lit) ∧
    (∀ lit, lit.declaredType? = none →
      filters.literal_kt lit
        = (legacy_literal_kt lit).map RenderResult.rendered) ∧
    (∀ t, filters.definition_code t
      = (find t).map fun ct => ct.definition_code) ∧
    (∀ t, filters.type_kt t = (find t).map fun ct => ct.type_label) ∧
    (∀ nm t, filters.lower_kt nm t = (find t).map fun ct => ct.lower nm) ∧
    (∀ nm target t, filters.write_kt nm target t
      = (find t).map fun ct => ct.write nm target) ∧
    (∀ nm t, filters.lift_kt nm t = (find t).map fun ct => ct.lift nm) ∧
    (∀ nm t, filters.read_kt nm t = (find t).map fun ct => ct.read nm) ∧
    (∀ ffi, filters.type_ffi ffi = Except.ok (ffi_type_label ffi)) ∧
    (∀ nm, filters.class_name_kt nm = Except.ok (class_name nm)) ∧
    (∀ nm, filters.fn_name_kt nm = Except.ok (fn_name nm)) ∧
    (∀ nm, filters.var_name_kt nm = Except.ok (var_name nm)) ∧
    (∀ nm, filters.enum_variant_kt nm = Except.ok (enum_variant nm)) ∧
    (∀ nm, filters.exception_name_kt nm = Except.ok (exception_name nm)) := by
  refine ⟨fun lit t h => ?_, fun lit h => ?_, fun _ => rfl, fun _ => rfl,
    fun _ _ => rfl, fun _ _ _ => rfl, fun _ _ => rfl, fun _ _ => rfl,
    fun _ => rfl, fun _ => rfl, fun _ => rfl, fun _ => rfl, fun _ => rfl,
    fun _ => rfl⟩
  · cases lit <;>
      first
        | exact Option.noConfusion h
        | (injection h with h2; subst h2; rfl)
  · cases lit <;> first | exact Option.noConfusion h | rfl

/-- Witness for C7's amended theorem: delegation at a typed integer
literal, and the legacy route at the untyped Null literal. -/
theorem filters_delegation_amended_witness :
    filters.literal_kt (.Int 7 .decimal (.Primitive ("i32")))
      = (find (.Primitive ("i32"))).map
          (fun ct => ct.literal (.Int 7 .decimal (.Primitive ("i32")))) ∧
    filters.literal_kt .Null
      = (legacy_literal_kt .Null).map RenderResult.rendered :=
  ⟨filters_delegation_amended.1 (.Int 7 .decimal (.Primitive ("i32")))
      (.Primitive ("i32")) rfl,
    filters_delegation_amended.2.1 .Null rfl⟩

/-- C8: every declared callback interface contributes a one-time
initialization statement registering its dispatch-table internals, and
its contributed import list includes the mutual-exclusion lock imports
protecting the dispatch table. -/
theorem callback_interface_registration_and_lock_imports
    (cb : KotlinCallbackInterface) :
    cb.initialization_code
      = some (callbackInternals cb.inner.name ++ ".register(lib)") ∧
    (∃ imports, cb.import_code = some imports ∧
      "java.util.concurrent.locks.ReentrantLock" ∈ imports ∧
      "kotlin.concurrent.withLock" ∈ imports) := by
  refine ⟨rfl, ⟨_, rfl, ?_, ?_⟩⟩ <;> simp

/-- Counterexample for C1: the dispatch match sends an object identifier
and a callback-interface identifier to the generic fallback strategy and
not to the dedicated strategies that exist in the source tree. -/
theorem find_object_callback_hit_fallback :
    find (.Object ("TodoList"))
      = Except.ok (.FallbackCodeType (.Object ("TodoList"))) ∧
    find (.Object ("TodoList"))
      ≠ Except.ok (.ObjectCodeType ("TodoList")) ∧
    find (.CallbackInterface ("OnCallAnswered"))
      = Except.ok (.FallbackCodeType (.CallbackInterface ("OnCallAnswered"))) ∧
    find (.CallbackInterface ("OnCallAnswered"))
      ≠ Except.ok (.CallbackInterfaceCodeType ("OnCallAnswered")) := by
  refine ⟨rfl, ?_, rfl, ?_⟩ <;> simp [find, create_code_type]

/-- C1 amended: only enumerations resolve to a dedicated strategy; object
and callback-interface identifiers resolve to the generic fallback
strategy, even though dedicated strategies for them exist in the source
tree. -/
theorem create_code_type_dispatch_amended (id : String) :
    create_code_type (.Enum id) = .EnumCodeType id ∧
    create_code_type (.Object id) = .FallbackCodeType (.Object id) ∧
    create_code_type (.CallbackInterface id)
      = .FallbackCodeType (.CallbackInterface id) :=
  ⟨rfl, rfl, rfl⟩

/-- C9: the object strategy imports the atomic flag type, and in the
disposal model every interleaving of the explicit-disposal trigger and
the automatic-reclamation trigger that runs both to completion records
exactly one native destroy call, performed by the single trigger whose
indivisible checked-and-set won. -/
theorem object_disposal_destroy_exactly_once :
    (∀ id, ∃ imports,
      CodeType.import_code (.ObjectCodeType id) = some imports ∧
      "java.util.concurrent.atomic.AtomicBoolean" ∈ imports) ∧
    (∀ sched : List Bool,
      (runSched initialWorld sched).a.pc = .finished →
      (runSched initialWorld sched).b.pc = .finished →
      (runSched initialWorld sched).shared.destroyCalls = 1 ∧
      ((runSched initialWorld sched).a.won = true ∨
        (runSched initialWorld sched).b.won = true) ∧
      ¬((runSched initialWorld sched).a.won = true ∧
        (runSched initialWorld sched).b.won = true)) := by
  constructor
  · intro id
    exact ⟨_, rfl, by simp⟩
  · intro sched ha hb
    have hinv := disposalInv_run sched initialWorld disposalInv_initial
    obtain ⟨hflag, hwon, hcalls⟩ := hinv
    cases hwa : (runSched initialWorld sched).a.won <;>
      cases hwb : (runSched initialWorld sched).b.won <;>
      simp_all [wonCount, destroyedCount]

/-- Witness for C9: the schedule in which the explicit trigger checks
first, then the automatic trigger checks, then both proceed, records
exactly one destroy call. -/
theorem object_disposal_destroy_exactly_once_witness :
    (∃ imports,
      CodeType.import_code (.ObjectCodeType ("TodoList")) = some imports ∧
      "java.util.concurrent.atomic.AtomicBoolean" ∈ imports) ∧
    ((runSched initialWorld [true, false, true, false]).shared.destroyCalls = 1 ∧
      ((runSched initialWorld [true, false, true, false]).a.won = true ∨
        (runSched initialWorld [true, false, true, false]).b.won = true) ∧
      ¬((runSched initialWorld [true, false, true, false]).a.won = true ∧
        (runSched initialWorld [true, false, true, false]).b.won = true)) :=
  ⟨object_disposal_destroy_exactly_once.1 ("TodoList"),
    object_disposal_destroy_exactly_once.2 [true, false, true, false]
      (by decide) (by decide)⟩
